import Mathlib

/-!
Shallow embedding of the caption-acquisition pipeline of the
incrementum-tauri repository, covering

* `src/api/youtube/transcript.py`  (namespace `Api` below), and
* `src/vps-service/service.py`     (namespace `Vps` below).

Python strings are modelled as `List Char`; Python numerics (`int`, `float`)
are modelled by exact rationals `ℚ` (decimal literals such as `03.456` are
exactly representable; the idealised real-valued semantics of the spec).
Fallible Python operations are modelled with `Option`/`Except`: `none` /
`.error` stands for a raised exception.  Effectful steps (network, cache
file system, subprocesses) are modelled by explicit environments holding
the outcome each step would produce.
-/

/-! ### Python string primitives -/

/-- Characters stripped by Python `str.strip()` (ASCII whitespace). -/
def isPySpace (c : Char) : Bool :=
  c == ' ' || c == '\t' || c == '\n' || c == '\r' || c == '\x0b' || c == '\x0c'

/-- Python `str.strip()`. -/
def pyStrip (s : List Char) : List Char :=
  ((s.dropWhile isPySpace).reverse.dropWhile isPySpace).reverse

/-- Python `str.split(sep)` for a single-character separator:
every occurrence of `sep` separates chunks; `"".split(sep) = [""]`. -/
def pySplitChar (sep : Char) : List Char → List (List Char)
  | [] => [[]]
  | c :: rest =>
    if c = sep then [] :: pySplitChar sep rest
    else
      match pySplitChar sep rest with
      | [] => [[c]]
      | t :: ts => (c :: t) :: ts

/-- Python `str.split('\n\n')` (leftmost, non-overlapping occurrences). -/
def splitNN : List Char → List (List Char)
  | [] => [[]]
  | '\n' :: '\n' :: rest => [] :: splitNN rest
  | c :: rest =>
    match splitNN rest with
    | [] => [[c]]
    | t :: ts => (c :: t) :: ts

/-- Python `str.split('-->')` (leftmost, non-overlapping occurrences). -/
def splitArrow : List Char → List (List Char)
  | [] => [[]]
  | '-' :: '-' :: '>' :: rest => [] :: splitArrow rest
  | c :: rest =>
    match splitArrow rest with
    | [] => [[c]]
    | t :: ts => (c :: t) :: ts

/-- `l` is a prefix of `s` (Boolean). -/
def isPrefixOfC : List Char → List Char → Bool
  | [], _ => true
  | _ :: _, [] => false
  | a :: as, b :: bs => a == b && isPrefixOfC as bs

/-- Python `pat in s` (substring containment). -/
def containsSub (s pat : List Char) : Bool :=
  match s with
  | [] => isPrefixOfC pat []
  | _ :: rest => isPrefixOfC pat s || containsSub rest pat

/-- Python `'-->' in s`. -/
def containsArrow (s : List Char) : Bool :=
  containsSub s ['-', '-', '>']

/-- `' '.join ls` (Python). -/
def joinSpace : List (List Char) → List Char
  | [] => []
  | [l] => l
  | l :: ls => l ++ ' ' :: joinSpace ls

/-- `'\n'.join ls`: inverse of splitting on a newline. -/
def joinNL : List (List Char) → List Char
  | [] => []
  | [l] => l
  | l :: ls => l ++ '\n' :: joinNL ls

/-! ### Python numeric literal parsing -/

/-- Value of a list of decimal digit characters. -/
def digitsToNat (l : List Char) : ℕ :=
  l.foldl (fun a c => 10 * a + (c.toNat - 48)) 0

/-- All characters are decimal digits. -/
def decDigits (l : List Char) : Bool :=
  l.all Char.isDigit

/-- Python `int(s)` on decimal notation: optional sign, then one or more
digits (surrounding whitespace stripped).  Returned as a rational since every
use mixes it into `float` arithmetic.  `none` models a raised `ValueError`. -/
def pyInt (s : List Char) : Option ℚ :=
  let t := pyStrip s
  match t with
  | '-' :: r => if r ≠ [] ∧ decDigits r then some (-(digitsToNat r : ℚ)) else none
  | '+' :: r => if r ≠ [] ∧ decDigits r then some (digitsToNat r : ℚ) else none
  | _ => if t ≠ [] ∧ decDigits t then some (digitsToNat t : ℚ) else none

/-- Python `float(s)` on plain decimal notation (optional sign, digits,
optional single `.`), the only shapes this code base feeds it.  `none`
models a raised `ValueError`. -/
def pyFloat (s : List Char) : Option ℚ :=
  let t := pyStrip s
  let su : ℚ × List Char :=
    match t with
    | '-' :: r => (-1, r)
    | '+' :: r => (1, r)
    | _ => (1, t)
  match pySplitChar '.' su.2 with
  | [ip] =>
    if ip ≠ [] ∧ decDigits ip then some (su.1 * (digitsToNat ip : ℚ)) else none
  | [ip, fp] =>
    if (ip ≠ [] ∨ fp ≠ []) ∧ decDigits ip ∧ decDigits fp then
      some (su.1 * ((digitsToNat ip : ℚ) + (digitsToNat fp : ℚ) / (10 : ℚ) ^ fp.length))
    else none
  | _ => none

/-! ### HTML-tag stripping: `re.sub(r'<[^>]+>', '', s)` -/

/-- After an opening `<`, consume `[^>]+>` and return the rest; `none` when
the pattern cannot match at this `<`. -/
def splitTagGo : List Char → Option (List Char)
  | [] => none
  | c :: rest => if c = '>' then some rest else splitTagGo rest

/-- `[^>]+>` needs at least one character before the `>`. -/
def splitTag : List Char → Option (List Char)
  | [] => none
  | c :: rest => if c = '>' then none else splitTagGo rest

/-- Fueled worker for `stripTags`; each step consumes at least one input
character, so fuel `s.length` is always sufficient and the `0` case is
never reached on the initial call. -/
def stripTagsF : Nat → List Char → List Char
  | 0, s => s
  | _ + 1, [] => []
  | fuel + 1, c :: rest =>
    if c = '<' then
      match splitTag rest with
      | some rest2 => stripTagsF fuel rest2
      | none => c :: stripTagsF fuel rest
    else c :: stripTagsF fuel rest

/-- `re.sub(r'<[^>]+>', '', s)`: delete every leftmost non-overlapping
markup tag. -/
def stripTags (s : List Char) : List Char :=
  stripTagsF s.length s

/-! ### Shared data model -/

/-- One timed caption unit (`{text, start, duration}` in the source). -/
structure Segment where
  text : List Char
  start : ℚ
  duration : ℚ
deriving DecidableEq, Repr

namespace Api

/-! Embedding of `src/api/youtube/transcript.py`. -/

/-- `parse_timestamp` (transcript.py:105-110): split on `:`; three parts give
`H*3600+M*60+S`, otherwise the code unconditionally uses the first two parts
as `M*60+S` (an `IndexError` — modelled as `none` — occurs only when there is
a single part). -/
def parse_timestamp (ts : List Char) : Option ℚ :=
  let parts := pySplitChar ':' ts
  if parts.length = 3 then
    match parts with
    | [a, b, c] => do
      pure ((← pyFloat a) * 3600 + (← pyFloat b) * 60 + (← pyFloat c))
    | _ => none
  else
    match parts with
    | a :: b :: _ => do pure ((← pyFloat a) * 60 + (← pyFloat b))
    | _ => none

/-- Take exactly `n` decimal digits from the front of `s`. -/
def takeDigits : Nat → List Char → Option (List Char × List Char)
  | 0, s => some ([], s)
  | _ + 1, [] => none
  | n + 1, c :: s =>
    if c.isDigit then (takeDigits n s).map (fun p => (c :: p.1, p.2)) else none

/-- Seconds denoted by digit groups `ss` and `mmm` (the value
`float(ss.mmm)` computes, exactly). -/
def secondsVal (ss ms : List Char) : ℚ :=
  (digitsToNat ss : ℚ) + (digitsToNat ms : ℚ) / 1000

/-- The hour-bearing alternative `(\d{2}):(\d{2}):(\d{2}\.\d{3})` of the VTT
timestamp pattern, combined with `_parse_vtt_timestamp`
(transcript.py:113-115): value `int(hh)*3600 + int(mm)*60 + float(ss.mmm)`. -/
def vttTimeH (s : List Char) : Option (ℚ × List Char) := do
  let (hh, s1) ← takeDigits 2 s
  match s1 with
  | ':' :: s2 =>
    let (mm, s3) ← takeDigits 2 s2
    match s3 with
    | ':' :: s4 =>
      let (ss, s5) ← takeDigits 2 s4
      match s5 with
      | '.' :: s6 =>
        let (ms, s7) ← takeDigits 3 s6
        pure ((digitsToNat hh : ℚ) * 3600 + (digitsToNat mm : ℚ) * 60 + secondsVal ss ms, s7)
      | _ => none
    | _ => none
  | _ => none

/-- The hourless alternative `(\d{2}):(\d{2}\.\d{3})`, value
`int(mm)*60 + float(ss.mmm)` (hours default to 0). -/
def vttTimeNH (s : List Char) : Option (ℚ × List Char) := do
  let (mm, s1) ← takeDigits 2 s
  match s1 with
  | ':' :: s2 =>
    let (ss, s3) ← takeDigits 2 s2
    match s3 with
    | '.' :: s4 =>
      let (ms, s5) ← takeDigits 3 s4
      pure ((digitsToNat mm : ℚ) * 60 + secondsVal ss ms, s5)
    | _ => none
  | _ => none

/-- `(?:(\d{2}):)?(\d{2}):(\d{2}\.\d{3})`: the regex engine prefers the
hour-bearing reading and backtracks to the hourless one. -/
def vttTime (s : List Char) : Option (ℚ × List Char) :=
  (vttTimeH s).orElse (fun _ => vttTimeNH s)

/-- `\s+` in the timestamp pattern: at least one whitespace character,
greedily consumed (the following literal `-->` is not whitespace, so the
greedy reading is exact). -/
def skipWs1 (s : List Char) : Option (List Char) :=
  match s with
  | [] => none
  | c :: rest => if isPySpace c then some (rest.dropWhile isPySpace) else none

/-- The literal `-->`. -/
def stripArrowLit : List Char → Option (List Char)
  | '-' :: '-' :: '>' :: rest => some rest
  | _ => none

/-- `re.match` of the cue-timestamp pattern of `parse_vtt`
(transcript.py:128): anchored at the start of the line, trailing characters
allowed.  Returns the two parsed times. -/
def vttTsMatch (line : List Char) : Option (ℚ × ℚ) := do
  let (t1, r1) ← vttTime line
  let r2 ← skipWs1 r1
  let r3 ← stripArrowLit r2
  let r4 ← skipWs1 r3
  let (t2, _) ← vttTime r4
  pure (t1, t2)

/-- Parser state of the `parse_vtt` line loop:
`segments`, `cur_start`, `cur_end`, `cur_text`. -/
structure VttState where
  segments : List Segment
  curStart : ℚ
  curEnd : ℚ
  curText : List Char
deriving DecidableEq, Repr

/-- The flush guard of `parse_vtt` (transcript.py:130-135 and 144-149):
append the accumulated cue unless its text is empty or repeats the text of
the last appended segment (consecutive-duplicate dedup). -/
def vttFlush (st : VttState) : List Segment :=
  if st.curText ≠ [] ∧
      (st.segments = [] ∨ (st.segments.getLast?).map Segment.text ≠ some st.curText) then
    st.segments ++ [⟨pyStrip st.curText, st.curStart, st.curEnd - st.curStart⟩]
  else st.segments

/-- One iteration of the `parse_vtt` line loop (transcript.py:123-142). -/
def vttStep (st : VttState) (rawLine : List Char) : VttState :=
  let line := pyStrip rawLine
  if line = [] ∨ line = ("WEBVTT".toList) ∨ isPrefixOfC ("NOTE".toList) line then st
  else
    match vttTsMatch line with
    | some (s, e) => { segments := vttFlush st, curStart := s, curEnd := e, curText := [] }
    | none =>
      let txt := stripTags line
      { st with curText := if st.curText ≠ [] then st.curText ++ ' ' :: txt else txt }

/-- `parse_vtt` (transcript.py:118-151).  Note: it returns the segment list
as is — there is no emptiness check and no exception on an empty parse. -/
def parse_vtt (content : List Char) : List Segment :=
  vttFlush ((pySplitChar '\n' content).foldl vttStep ⟨[], 0, 0, []⟩)

/-- One SRT timestamp group `\d{2}:\d{2}:\d{2},\d{3}`, returned as the
matched characters plus the rest of the line. -/
def srtTime (s : List Char) : Option (List Char × List Char) := do
  let (hh, s1) ← takeDigits 2 s
  match s1 with
  | ':' :: s2 =>
    let (mm, s3) ← takeDigits 2 s2
    match s3 with
    | ':' :: s4 =>
      let (ss, s5) ← takeDigits 2 s4
      match s5 with
      | ',' :: s6 =>
        let (ms, s7) ← takeDigits 3 s6
        pure (hh ++ ':' :: mm ++ ':' :: ss ++ ',' :: ms, s7)
      | _ => none
    | _ => none
  | _ => none

/-- `re.match` of the SRT timestamp pattern (transcript.py:290): two
comma-decimal timestamps joined by `\s+-->\s+`, anchored at line start. -/
def srtTsMatch (line : List Char) : Option (List Char × List Char) := do
  let (g1, r1) ← srtTime line
  let r2 ← skipWs1 r1
  let r3 ← stripArrowLit r2
  let r4 ← skipWs1 r3
  let (g2, _) ← srtTime r4
  pure (g1, g2)

/-- Python `str.replace(',', '.')`. -/
def replaceCommaDot (s : List Char) : List Char :=
  s.map (fun c => if c = ',' then '.' else c)

/-- One block of `parse_srt` (transcript.py:284-301).  `.error` models an
exception escaping the block (a `ValueError` from `float`, impossible for
regex-shaped groups); `.ok none` models a silently skipped block. -/
def srtBlockStep (block : List Char) : Except (List Char) (Option Segment) :=
  let lines := ((pySplitChar '\n' block).map pyStrip).filter (fun l => l ≠ [])
  match lines with
  | _ :: l1 :: l2 :: rest =>
    match srtTsMatch l1 with
    | none => .ok none
    | some (g1, g2) =>
      match parse_timestamp (replaceCommaDot g1), parse_timestamp (replaceCommaDot g2) with
      | some s, some e =>
        let text := pyStrip (joinSpace (l2 :: rest))
        .ok (if text ≠ [] then some ⟨stripTags text, s, max (e - s) 0⟩ else none)
      | _, _ => .error ("ValueError".toList)
  | _ => .ok none

/-- `parse_srt` (transcript.py:280-304): split on blank-line-delimited
blocks, parse each, raise `No transcript segments found` when nothing
parsed.  No dedup rule is applied on this path. -/
def parse_srt (content : List Char) : Except (List Char) (List Segment) := do
  let segments ← (splitNN content).foldlM
    (fun acc block => do
      let s? ← srtBlockStep block
      pure (acc ++ s?.toList))
    ([] : List Segment)
  if segments = [] then .error ("No transcript segments found".toList) else pure segments

end Api

namespace Api

/-! #### Track selector (`get_best_caption_track`, transcript.py:307-350) -/

/-- One caption track as reported by yt-dlp (`protocol`, `ext`, plus its
download URL so that distinct tracks are distinguishable; `none` models a
missing dictionary key). -/
structure Track where
  protocol : Option (List Char)
  ext : Option (List Char)
  url : List Char
deriving DecidableEq, Repr

/-- The yt-dlp info mapping: language code to track list, in dictionary
(insertion) order, for manual subtitles and automatic captions. -/
structure YtInfo where
  subtitles : List (List Char × List Track)
  automatic_captions : List (List Char × List Track)
deriving DecidableEq, Repr

/-- Python `dict.get`: first (unique) key match. -/
def dictGet (d : List (List Char × List Track)) (k : List Char) : Option (List Track) :=
  match d with
  | [] => none
  | (k1, v) :: rest => if k1 = k then some v else dictGet rest k

def subtitle_priorities : List (List Char) :=
  [String.toList "en-US", String.toList "en-CA", String.toList "en-GB", String.toList "en"]

def auto_priorities : List (List Char) :=
  [String.toList "en-orig", String.toList "en-US", String.toList "en-CA",
   String.toList "en-GB", String.toList "en"]

def format_priorities : List (List Char) :=
  [String.toList "vtt", String.toList "srt"]

/-- `for lang in priorities: if d.get(lang): take it` — only a present and
non-empty list is taken (Python truthiness). -/
def prioFind (d : List (List Char × List Track)) : List (List Char) → Option (List Track)
  | [] => none
  | lang :: rest =>
    match dictGet d lang with
    | some l => if l = [] then prioFind d rest else some l
    | none => prioFind d rest

/-- `for lang in subtitles.keys(): if lang.startswith('en-'): take it` —
the first `en-` key is taken even when its list is empty. -/
def enDashFind : List (List Char × List Track) → Option (List Track)
  | [] => none
  | (k, v) :: rest => if isPrefixOfC (String.toList "en-") k then some v else enDashFind rest

/-- Python falsiness of the `caption_track` variable (`None` or `[]`). -/
def trackFalsy : Option (List Track) → Bool
  | none => true
  | some l => l.isEmpty

/-- Inner loop of the format preference: skip `m3u8_native` tracks, return
the first track whose `ext` equals `fmt`. -/
def findTrackExt : List Track → List Char → Option Track
  | [], _ => none
  | t :: ts, fmt =>
    if t.protocol = some (String.toList "m3u8_native") then findTrackExt ts fmt
    else if t.ext = some fmt then some t
    else findTrackExt ts fmt

/-- `for fmt in format_priorities: ...`. -/
def fmtLoop (l : List Track) : List (List Char) → Option Track
  | [] => none
  | fmt :: fs =>
    match findTrackExt l fmt with
    | some t => some t
    | none => fmtLoop l fs

/-- Fallback loop (transcript.py:343-348): first non-`m3u8_native` track
whose `ext` is not one of the unsupported formats. -/
def fallbackTrack : List Track → Option Track
  | [] => none
  | t :: ts =>
    if t.protocol ≠ some (String.toList "m3u8_native") then
      if (match t.ext with
          | some e => e = String.toList "ttml" || e = String.toList "srv1" ||
              e = String.toList "srv2" || e = String.toList "srv3"
          | none => false : Bool) then fallbackTrack ts
      else some t
    else fallbackTrack ts

/-- Second-level selection inside the chosen language's track list. -/
def formatPick (l : List Track) : Option Track :=
  match fmtLoop l format_priorities with
  | some t => some t
  | none => fallbackTrack l

/-- `get_best_caption_track` (transcript.py:307-350). -/
def get_best_caption_track (info : YtInfo) : Option Track :=
  let c1 := prioFind info.subtitles subtitle_priorities
  let c2 := if trackFalsy c1 then enDashFind info.subtitles else c1
  let c3 := if trackFalsy c2 then prioFind info.automatic_captions auto_priorities else c2
  match c3 with
  | some l => if l.isEmpty then none else formatPick l
  | none => none

end Api

/-! ### Video-id extraction (transcript.py:88-102, service.py:95-113) -/

/-- The 11-character token alphabet `[a-zA-Z0-9_-]`. -/
def tokenChar (c : Char) : Bool :=
  c.isAlpha || c.isDigit || c == '_' || c == '-'

/-- `([a-zA-Z0-9_-]{11})` anchored at the front of `s`: exactly eleven
token characters (no backtracking is possible for a fixed-width class). -/
def matchToken11 (s : List Char) : Option (List Char) :=
  let tok := s.take 11
  if tok.length = 11 ∧ tok.all tokenChar then some tok else none

/-- At one search position, try each alternative marker in order; a marker
that matches but is not followed by eleven token characters falls through
to the next alternative (regex alternation). -/
def tryMarkersAt : List (List Char) → List Char → Option (List Char)
  | [], _ => none
  | m :: ms, s =>
    if isPrefixOfC m s then
      match matchToken11 (s.drop m.length) with
      | some t => some t
      | none => tryMarkersAt ms s
    else tryMarkersAt ms s

/-- `re.search` for a pattern `(?:m1|m2|...)([a-zA-Z0-9_-]{11})`: leftmost
position wins, alternatives tried in order at each position. -/
def reSearch (markers : List (List Char)) : List Char → Option (List Char)
  | [] => tryMarkersAt markers []
  | c :: rest =>
    match tryMarkersAt markers (c :: rest) with
    | some t => some t
    | none => reSearch markers rest

def watchMarker : List Char := String.toList "youtube.com/watch?v="
def beMarker : List Char := String.toList "youtu.be/"
def embedMarker : List Char := String.toList "youtube.com/embed/"
def vMarker : List Char := String.toList "youtube.com/v/"
def shortsMarker : List Char := String.toList "youtube.com/shorts/"

/-- The shared `for pattern in patterns: re.search(...)` loop of both
`extract_video_id` functions (transcript.py:90-102, service.py:98-113):
four patterns, the first being an alternation of the `watch?v=` and
`youtu.be/` markers. -/
def searchPatterns (url : List Char) : Option (List Char) :=
  match reSearch [watchMarker, beMarker] url with
  | some t => some t
  | none =>
    match reSearch [embedMarker] url with
    | some t => some t
    | none =>
      match reSearch [vMarker] url with
      | some t => some t
      | none =>
        match reSearch [shortsMarker] url with
        | some t => some t
        | none => none

namespace Api

/-- `extract_video_id` (transcript.py:88-102): URL patterns only — a bare
11-character token has no verbatim-acceptance branch on this path. -/
def extract_video_id (url : List Char) : Option (List Char) :=
  searchPatterns url

end Api

namespace Vps

/-- `extract_video_id` (service.py:95-113): accepts an exact 11-character
token verbatim (`re.match(r'^[a-zA-Z0-9_-]{11}$', ...)`), then tries the
same four URL patterns. -/
def extract_video_id (url_or_id : List Char) : Option (List Char) :=
  if url_or_id.length = 11 ∧ url_or_id.all tokenChar then some url_or_id
  else searchPatterns url_or_id

end Vps

namespace Api

/-! #### Fallback orchestrator (`fetch_transcript`, transcript.py:413-529)

The four acquisition methods are effectful (network, subprocess); each is
modelled by the outcome it would produce if invoked, carried by `ApiEnv`.
The orchestrator's value is the returned result (or raised exception)
together with the list of methods actually invoked, in order. -/

inductive Method where
  | m0   -- yt-dlp-transcripts with proxy       (Method 0)
  | m1   -- direct API, no proxy                (Method 1, Strategy 1)
  | m2   -- direct API with proxy               (Method 2, Strategy 2)
  | m3   -- yt-dlp with proxy, external tool    (Method 3, Strategy 3)
deriving DecidableEq, Repr

/-- A transcript result as returned by the fetch methods. -/
structure ApiResult where
  segments : List Segment
  language : List Char
  title : Option (List Char)
  duration : Option ℚ
deriving DecidableEq, Repr

/-- Configuration and per-method outcomes for one orchestrator run. -/
structure ApiEnv where
  proxy : Option (List Char)
  force_proxy : Bool
  transcripts_lib_available : Bool   -- YT_DLP_TRANSCRIPTS_AVAILABLE
  yt_dlp_available : Bool            -- YT_DLP_AVAILABLE
  method0 : Except (List Char) ApiResult
  method1 : Except (List Char) ApiResult
  method2 : Except (List Char) ApiResult
  method3 : Except (List Char) ApiResult

/-- The bot-challenge signature test on Method 1's failure text
(transcript.py:438): `'bot' in error.lower() or 'sign in' in error.lower()`. -/
def botSig (e : List Char) : Bool :=
  containsSub (e.map Char.toLower) (String.toList "bot") ||
  containsSub (e.map Char.toLower) (String.toList "sign in")

/-- Method 3 stage (transcript.py:453-529): runs only when yt-dlp and a
proxy are both available; otherwise, or on failure, the orchestrator
raises `All methods failed`. -/
def fetchM3 (env : ApiEnv) (tr : List Method) : Except (List Char) ApiResult × List Method :=
  if env.yt_dlp_available ∧ env.proxy.isSome then
    match env.method3 with
    | .ok r => (.ok r, tr ++ [Method.m3])
    | .error _ => (.error (String.toList "All methods failed"), tr ++ [Method.m3])
  else (.error (String.toList "All methods failed"), tr)

/-- Method 2 stage (transcript.py:443-451): runs only when a proxy is
configured and the bot flag is set. -/
def fetchM2 (env : ApiEnv) (tr : List Method) (bot : Bool) :
    Except (List Char) ApiResult × List Method :=
  if env.proxy.isSome ∧ bot then
    match env.method2 with
    | .ok r => (.ok r, tr ++ [Method.m2])
    | .error _ => fetchM3 env (tr ++ [Method.m2])
  else fetchM3 env tr

/-- Method 1 stage (transcript.py:428-441): skipped when `force_proxy` is
set (then the bot flag is assumed); a failure sets the bot flag from the
error text's signature. -/
def fetchM1 (env : ApiEnv) (tr : List Method) : Except (List Char) ApiResult × List Method :=
  if env.force_proxy then fetchM2 env tr true
  else
    match env.method1 with
    | .ok r => (.ok r, tr ++ [Method.m1])
    | .error e => fetchM2 env (tr ++ [Method.m1]) (botSig e)

/-- `fetch_transcript` (transcript.py:413-529). -/
def fetch_transcript (env : ApiEnv) : Except (List Char) ApiResult × List Method :=
  if env.proxy.isSome ∧ env.transcripts_lib_available then
    match env.method0 with
    | .ok r => (.ok r, [Method.m0])
    | .error _ => fetchM1 env [Method.m0]
  else fetchM1 env []

end Api

namespace Vps

/-! Embedding of `src/vps-service/service.py`. -/

/-- `re.sub(r'<[^>]+>', '', text_line)` as executed inside
`parse_vtt_subtitles` (service.py:268).  `service.py` never imports `re`
at module scope — the only `import re` is local to `extract_video_id`
(service.py:97) and binds a function-local name — so evaluating `re.sub`
here raises `NameError`: modelled as `none` for every argument. -/
def reSubTags (text_line : List Char) : Option (List Char) :=
  match text_line with
  | _ => none

/-- `re.sub(r'^\d+\s*', '', text_line)` (service.py:270): the same unbound
`re`, the same `NameError`. -/
def reSubLeadingNum (text_line : List Char) : Option (List Char) :=
  match text_line with
  | _ => none

/-- The text-collection `while` loop of `parse_vtt_subtitles`
(service.py:263-273).  `.error i` models an exception raised with the loop
variable equal to `i` (it propagates to the `except` handler at
service.py:284); `.ok (texts, i)` is a normal exit.  `fuel` bounds the
iteration count; every iteration advances `i`, so `lines.length` fuel is
always enough. -/
def collectText (lines : List (List Char)) : Nat → Nat →
    Except Nat (List (List Char) × Nat)
  | 0, i => .ok ([], i)
  | fuel + 1, i =>
    if h : i < lines.length then
      let li := lines.get ⟨i, h⟩
      if pyStrip li ≠ [] ∧ ¬ containsArrow li then
        match reSubTags (pyStrip li) with
        | none => .error i
        | some t1 =>
          match reSubLeadingNum t1 with
          | none => .error i
          | some t2 =>
            match collectText lines fuel (i + 1) with
            | .error j => .error j
            | .ok (ts, j) => .ok ((if t2 ≠ [] then t2 :: ts else ts), j)
      else .ok ([], i)
    else .ok ([], i)

/-- Python `round(q, 3)` (round-half-to-even at the third decimal). -/
def pyRound3 (q : ℚ) : ℚ :=
  let t := q * 1000
  let f : ℤ := ⌊t⌋
  let r := t - (f : ℚ)
  let n : ℤ :=
    if r < 1 / 2 then f
    else if 1 / 2 < r then f + 1
    else if f % 2 = 0 then f else f + 1
  (n : ℚ) / 1000

/-- Timestamp parsing of one side of the `-->` line
(service.py:249-260): `int`/`float` on colon-separated groups; 3 groups
give `H*3600+M*60+S`, otherwise the first two give `M*60+S` (a single
group raises `IndexError`, modelled as `none`). -/
def cueTime (s : List Char) : Option ℚ :=
  let parts := pySplitChar ':' s
  if parts.length = 3 then
    match parts with
    | [a, b, c] => do
      pure ((← pyInt a) * 3600 + (← pyInt b) * 60 + (← pyFloat c))
    | _ => none
  else
    match parts with
    | a :: b :: _ => do pure ((← pyInt a) * 60 + (← pyFloat b))
    | _ => none

/-- `line.split('-->')` and timestamp parsing of both sides
(service.py:244-260); `none` models a raised exception. -/
def cueTimePair (line : List Char) : Option (ℚ × ℚ) :=
  match splitArrow line with
  | p0 :: p1 :: _ => do
    let s ← cueTime (pyStrip p0)
    let e ← cueTime (pyStrip p1)
    pure (s, e)
  | _ => none

/-- The `try` block of `parse_vtt_subtitles` for one cue (service.py:242-286),
entered at index `i` on a stripped line containing `-->`.  Returns the
appended segment (if any) and the value of `i` when the `try`/`except`
construct is left (the handler swallows every exception). -/
def tryCue (lines : List (List Char)) (line : List Char) (i : Nat) :
    Option Segment × Nat :=
  match cueTimePair line with
  | none => (none, i)                     -- ValueError before `i += 1`
  | some (s, e) =>
    match collectText lines lines.length (i + 1) with
    | .error j => (none, j)               -- NameError from `re.sub`, caught
    | .ok (textLines, j) =>
      let text := pyStrip (joinSpace textLines)
      (if text ≠ [] then some ⟨text, pyRound3 s, pyRound3 (e - s)⟩ else none, j)

/-- The outer `while i < len(lines)` loop of `parse_vtt_subtitles`
(service.py:236-288).  `fuel` bounds the iteration count; `i` grows by at
least one per iteration, so `lines.length + 1` fuel is always enough. -/
def parseLoop (lines : List (List Char)) : Nat → Nat → List Segment → List Segment
  | 0, _, segments => segments
  | fuel + 1, i, segments =>
    if h : i < lines.length then
      let line := pyStrip (lines.get ⟨i, h⟩)
      if containsArrow line then
        let r := tryCue lines line i
        parseLoop lines fuel (r.2 + 1) (segments ++ r.1.toList)
      else parseLoop lines fuel (i + 1) segments
    else segments

/-- `parse_vtt_subtitles` (service.py:231-290). -/
def parse_vtt_subtitles (vtt_content : List Char) : List Segment :=
  let lines := pySplitChar '\n' vtt_content
  parseLoop lines (lines.length + 1) 0 []

end Vps

namespace Vps

/-! #### Artifact cache (service.py:53-89)

One cache file per video id; the write time (`st_mtime`) plays the role of
`writtenAt`.  The file system is a map from video id to payload and write
time; wall-clock instants are rationals (seconds). -/

/-- The available-language listing attached to a stored result
(`get_available_subtitles`, service.py:145-156). -/
structure AvailableLangs where
  manual : List (List Char)
  auto : List (List Char)
deriving DecidableEq, Repr

/-- The flat record built at service.py:352-359 and stored by
`save_to_cache`. -/
structure StoredResult where
  title : List Char
  duration : ℚ
  language : List Char
  segments : List Segment
  segment_count : Nat
  available_languages : AvailableLangs
deriving DecidableEq, Repr

/-- `CACHE_TTL = timedelta(hours=24)`, in seconds. -/
def CACHE_TTL : ℚ := 24 * 3600

/-- The cache directory: video id to `(payload, mtime)`. -/
structure CacheFS where
  files : List Char → Option (StoredResult × ℚ)

/-- `is_cache_valid` (service.py:57-64): the file exists and
`now - mtime < CACHE_TTL` (strict). -/
def is_cache_valid (fs : CacheFS) (video_id : List Char) (now : ℚ) : Bool :=
  match fs.files video_id with
  | none => false
  | some (_, mtime) => now - mtime < CACHE_TTL

/-- `load_from_cache` (service.py:66-78): `None` unless the entry is valid;
reading never deletes or modifies anything. -/
def load_from_cache (fs : CacheFS) (video_id : List Char) (now : ℚ) : Option StoredResult :=
  match fs.files video_id with
  | none => none
  | some (data, mtime) => if now - mtime < CACHE_TTL then some data else none

/-- `save_to_cache` (service.py:80-89): overwrite the entry, stamping the
current time as its mtime. -/
def save_to_cache (fs : CacheFS) (video_id : List Char) (data : StoredResult) (now : ℚ) :
    CacheFS :=
  ⟨fun k => if k = video_id then some (data, now) else fs.files k⟩

/-! #### `fetch_transcript` (service.py:292-369) -/

/-- Video metadata as returned by `get_video_info_ytdlp` plus the subtitle
availability read from it. -/
structure VideoInfo where
  title : List Char
  duration : ℚ
  manualLangs : List (List Char)
  autoLangs : List (List Char)
deriving DecidableEq, Repr

/-- Outcomes of the effectful steps of one `fetch_transcript` run:
the cache lookup, `get_video_info_ytdlp` (`none` models `(None, err)`),
and `download_subtitles_ytdlp` (`none` models `(None, err)`). -/
structure VpsEnv where
  cached : Option StoredResult
  info : Option VideoInfo
  downloaded : Option (List Char)

/-- The JSON value `fetch_transcript` returns.  Failure responses carry
`success = false`, empty `segments` and the error `code`. -/
structure VpsResult where
  success : Bool
  cached : Bool
  segments : List Segment
  code : Option (List Char)
deriving DecidableEq, Repr

/-- A failure response with the given code. -/
def vpsFail (code : String) : VpsResult :=
  ⟨false, false, [], some code.toList⟩

/-- `fetch_transcript` (service.py:292-369), returning the response
together with the payload passed to `save_to_cache` (if the run saved
one). -/
def fetch_transcript (env : VpsEnv) : VpsResult × Option StoredResult :=
  match env.cached with
  | some cached => (⟨true, true, cached.segments, none⟩, none)
  | none =>
    match env.info with
    | none => (vpsFail "VIDEO_INFO_FAILED", none)
    | some info =>
      let available : AvailableLangs := ⟨info.manualLangs, info.autoLangs⟩
      if available.manual = [] ∧ available.auto = [] then (vpsFail "NO_CAPTIONS", none)
      else
        match env.downloaded with
        | none => (vpsFail "DOWNLOAD_FAILED", none)
        | some subtitle_data =>
          let segments := parse_vtt_subtitles subtitle_data
          if segments = [] then (vpsFail "NO_SEGMENTS", none)
          else
            let result : StoredResult :=
              ⟨info.title, info.duration, String.toList "en", segments,
               segments.length, available⟩
            (⟨true, false, segments, none⟩, some result)

end Vps

namespace Api

/-! #### The transcript endpoint (`handler._handle_request`,
transcript.py:636-722), fetch path only (the `status=true` health check
serves no transcript). -/

/-- A JSON response of the endpoint, reduced to the fields the transcript
contract speaks about. -/
structure Response where
  status : Nat
  success : Bool
  segments : List Segment
deriving DecidableEq, Repr

/-- Status code chosen by the `except` branch (transcript.py:701-722). -/
def errStatus (e : List Char) : Nat :=
  if containsSub e (String.toList "Sign in to confirm") then 503
  else if containsSub (e.map Char.toLower) (String.toList "consent") then 503
  else if containsSub e (String.toList "No captions") then 404
  else 500

/-- The local fallback of `_handle_request` (transcript.py:688-700): run
`fetch_transcript`, treat an empty segment list as a failure, and send a
success response otherwise; any raised exception is answered by the
`except` branch. -/
def localFetchResponse (env : ApiEnv) : Response :=
  match (fetch_transcript env).1 with
  | .ok result =>
    if result.segments = [] then
      ⟨errStatus (String.toList "No transcript segments found"), false, []⟩
    else ⟨200, true, result.segments⟩
  | .error e => ⟨errStatus e, false, []⟩

/-- The fetch path of `_handle_request` (transcript.py:670-700): the VPS
service is consulted first (`none` models "not configured or HTTP error");
a VPS result with `success` is passed through verbatim, anything else
falls back to the local methods. -/
def handleFetch (vps : Option Vps.VpsResult) (env : ApiEnv) : Response :=
  match vps with
  | some r => if r.success then ⟨200, true, r.segments⟩ else localFetchResponse env
  | none => localFetchResponse env

end Api

/-! ### Certification helpers for the marker scan -/

/-- `failsIn m pre = true` certifies that matching marker `m` fails on a
character inside `pre`, so `m` is not a prefix of `pre ++ s` for any `s`. -/
def failsIn : List Char → List Char → Bool
  | [], _ => false
  | _ :: _, [] => false
  | a :: as, b :: bs => if a == b then failsIn as bs else true

/-- `noHit ms pre = true` certifies that at every position inside `pre`
every marker of `ms` fails within `pre` itself, so the scan of
`pre ++ s` passes over `pre` without a match. -/
def noHit (ms : List (List Char)) : List Char → Bool
  | [] => true
  | c :: rest => (ms.all fun m => failsIn m (c :: rest)) && noHit ms rest

/-! ### Concrete sample data used by witnesses and counterexamples -/

def watchPre : List Char := String.toList "https://www.youtube.com/watch?v="
def bePre : List Char := String.toList "https://youtu.be/"
def embedPre : List Char := String.toList "https://www.youtube.com/embed/"
def shortsPre : List Char := String.toList "https://www.youtube.com/shorts/"

/-- A cue-block input with two consecutive cues carrying the same text
`t` at different timestamps, under the usual `WEBVTT` magic header. -/
def dupVtt (t : List Char) : List Char :=
  joinNL [String.toList "WEBVTT", [],
          String.toList "00:00:00.000 --> 00:00:05.000", t, [],
          String.toList "00:00:05.000 --> 00:00:10.000", t]

/-- A block-style (SRT) input with two consecutive identical-text cues at
different timestamps. -/
def srtDup : List Char :=
  joinNL [String.toList "1", String.toList "00:00:00,000 --> 00:00:05,000",
          String.toList "hello", [],
          String.toList "2", String.toList "00:00:05,000 --> 00:00:10,000",
          String.toList "hello"]

/-- A successful method outcome used in orchestrator scenarios. -/
def sampleOkResult : Api.ApiResult :=
  ⟨[⟨String.toList "hi", 0, 1⟩], String.toList "en", none, none⟩

/-- Proxy configured, Strategy 1 fails with a non-bot failure, Strategy 2
would succeed if it were invoked, Strategy 3 fails. -/
def proxySkipEnv : Api.ApiEnv :=
  ⟨some (String.toList "http://proxy:8080"), false, false, true,
   .error (String.toList "unused"),
   .error (String.toList "No captions available"),
   .ok sampleOkResult,
   .error (String.toList "network error")⟩

/-- No proxy configured, Strategy 1 fails with the bot-challenge
signature. -/
def noProxyEnv : Api.ApiEnv :=
  ⟨none, false, false, true,
   .error (String.toList "unused"),
   .error (String.toList "Sign in to confirm you are not a bot"),
   .error (String.toList "unused"),
   .error (String.toList "unused")⟩

/-- Proxy configured and Strategy 1 fails with the bot-challenge
signature; used to exercise the Strategy 2 escalation. -/
def botProxyEnv : Api.ApiEnv :=
  ⟨some (String.toList "http://proxy:8080"), false, false, true,
   .error (String.toList "unused"),
   .error (String.toList "Sign in to confirm you are not a bot"),
   .error (String.toList "blocked again"),
   .error (String.toList "network error")⟩

def demoVideoInfo : Vps.VideoInfo :=
  ⟨String.toList "Demo", 100, [String.toList "en"], []⟩

/-- A cache-miss run whose download succeeds with well-formed VTT data. -/
def missEnv : Vps.VpsEnv :=
  ⟨none, some demoVideoInfo,
   some (String.toList "WEBVTT\n\n00:00:00.000 --> 00:00:05.000\nhello")⟩

def hitStored : Vps.StoredResult :=
  ⟨String.toList "Demo", 100, String.toList "en",
   [⟨String.toList "hello", 0, 5⟩], 1, ⟨[String.toList "en"], []⟩⟩

/-- A cache-hit run. -/
def hitEnv : Vps.VpsEnv := ⟨some hitStored, none, none⟩

def manualTrack : Api.Track :=
  ⟨none, some (String.toList "vtt"), String.toList "https://example.org/manual"⟩

def autoTrack : Api.Track :=
  ⟨none, some (String.toList "vtt"), String.toList "https://example.org/auto"⟩

/-- Both a manual `en-US` track and an automatic `en-orig` track exist. -/
def demoYtInfo : Api.YtInfo :=
  ⟨[(String.toList "en-US", [manualTrack])],
   [(String.toList "en-orig", [autoTrack])]⟩

/-! ## Helper lemmas -/

@[simp] theorem toNat_c0 : '0'.toNat = 48 := rfl
@[simp] theorem toNat_c1 : '1'.toNat = 49 := rfl
@[simp] theorem toNat_c2 : '2'.toNat = 50 := rfl
@[simp] theorem toNat_c3 : '3'.toNat = 51 := rfl
@[simp] theorem toNat_c4 : '4'.toNat = 52 := rfl
@[simp] theorem toNat_c5 : '5'.toNat = 53 := rfl
@[simp] theorem toNat_c6 : '6'.toNat = 54 := rfl
@[simp] theorem toNat_c7 : '7'.toNat = 55 := rfl
@[simp] theorem toNat_c8 : '8'.toNat = 56 := rfl
@[simp] theorem toNat_c9 : '9'.toNat = 57 := rfl

theorem collectText_eq (lines : List (List Char)) (fuel i : Nat) :
    Vps.collectText lines fuel i = .error i ∨
    Vps.collectText lines fuel i = .ok ([], i) := by
  cases fuel with
  | zero => right; rfl
  | succ n =>
    unfold Vps.collectText
    have hsub : ∀ x, Vps.reSubTags x = none := fun _ => rfl
    simp only [hsub]
    split
    · split
      · left; rfl
      · right; rfl
    · right; rfl

theorem tryCue_fst_none (lines : List (List Char)) (line : List Char) (i : Nat) :
    (Vps.tryCue lines line i).1 = none := by
  unfold Vps.tryCue
  cases hp : Vps.cueTimePair line with
  | none => rfl
  | some se =>
    obtain ⟨s, e⟩ := se
    rcases collectText_eq lines lines.length (i + 1) with h | h <;>
      simp [h, joinSpace, pyStrip]

theorem parseLoop_eq (lines : List (List Char)) :
    ∀ fuel i segs, Vps.parseLoop lines fuel i segs = segs := by
  intro fuel
  induction fuel with
  | zero => intro i segs; rfl
  | succ n ih =>
    intro i segs
    unfold Vps.parseLoop
    split
    · dsimp only
      split
      · simp [tryCue_fst_none, ih]
      · exact ih _ _
    · rfl

theorem parse_vtt_subtitles_eq_nil (content : List Char) :
    Vps.parse_vtt_subtitles content = [] :=
  parseLoop_eq _ _ _ _

theorem localFetchResponse_success_nonempty (aenv : Api.ApiEnv) :
    (Api.localFetchResponse aenv).success = true →
    (Api.localFetchResponse aenv).segments ≠ [] := by
  unfold Api.localFetchResponse
  cases hr : (Api.fetch_transcript aenv).1 with
  | ok result =>
    by_cases hs : result.segments = [] <;> simp [hs]
  | error e => simp

/-! ## Claims -/

/-- C9: writing a cache entry and reading it back strictly within the
24-hour TTL returns the payload unchanged; once the TTL has elapsed the
read treats the entry as absent although it still physically exists
(reading never deletes). -/
theorem c9_cache_roundtrip_and_ttl_expiry
    (fs : Vps.CacheFS) (v : List Char) (r : Vps.StoredResult) (tw tr : ℚ) :
    (tr - tw < Vps.CACHE_TTL →
      Vps.load_from_cache (Vps.save_to_cache fs v r tw) v tr = some r) ∧
    (Vps.CACHE_TTL ≤ tr - tw →
      Vps.load_from_cache (Vps.save_to_cache fs v r tw) v tr = none ∧
      (Vps.save_to_cache fs v r tw).files v = some (r, tw)) := by
  constructor
  · intro h
    simp [Vps.load_from_cache, Vps.save_to_cache, h]
  · intro h
    simp [Vps.load_from_cache, Vps.save_to_cache, not_lt.mpr h]

theorem c9_witness :
    Vps.load_from_cache
        (Vps.save_to_cache ⟨fun _ => none⟩ (String.toList "dQw4w9WgXcQ") hitStored 0)
        (String.toList "dQw4w9WgXcQ") 10 = some hitStored ∧
    Vps.load_from_cache
        (Vps.save_to_cache ⟨fun _ => none⟩ (String.toList "dQw4w9WgXcQ") hitStored 0)
        (String.toList "dQw4w9WgXcQ") 86400 = none ∧
    (Vps.save_to_cache ⟨fun _ => none⟩ (String.toList "dQw4w9WgXcQ") hitStored 0).files
        (String.toList "dQw4w9WgXcQ") = some (hitStored, 0) :=
  ⟨(c9_cache_roundtrip_and_ttl_expiry ⟨fun _ => none⟩ _ hitStored 0 10).1
      (by norm_num [Vps.CACHE_TTL]),
   (c9_cache_roundtrip_and_ttl_expiry ⟨fun _ => none⟩ _ hitStored 0 86400).2
      (by norm_num [Vps.CACHE_TTL])⟩

/-- C1: `parse_vtt_subtitles` returns the empty list for every input
(module-scope `re` is unbound, so the per-cue handler swallows the
`NameError` and every cue is skipped; textless cues are skipped for
emptiness); consequently every cache-miss `fetch_transcript` run of the
VPS service that reaches parsing ends in the `NO_SEGMENTS` failure. -/
theorem c1_parse_vtt_subtitles_always_empty :
    (∀ content, Vps.parse_vtt_subtitles content = []) ∧
    (∀ (env : Vps.VpsEnv) (info : Vps.VideoInfo) (d : List Char),
      env.cached = none → env.info = some info →
      ¬(info.manualLangs = [] ∧ info.autoLangs = []) → env.downloaded = some d →
      (Vps.fetch_transcript env).1 = Vps.vpsFail "NO_SEGMENTS") := by
  refine ⟨parse_vtt_subtitles_eq_nil, ?_⟩
  intro env info d hc hi hlangs hd
  unfold Vps.fetch_transcript
  rw [hc, hi, hd]
  simp [hlangs, parse_vtt_subtitles_eq_nil]

theorem c1_witness :
    Vps.parse_vtt_subtitles
        (String.toList "WEBVTT\n\n00:00:00.000 --> 00:00:05.000\nhello") = [] ∧
    (Vps.fetch_transcript missEnv).1 = Vps.vpsFail "NO_SEGMENTS" :=
  ⟨c1_parse_vtt_subtitles_always_empty.1 _,
   c1_parse_vtt_subtitles_always_empty.2 missEnv demoVideoInfo _ rfl rfl
     (by simp [demoVideoInfo]) rfl⟩

/-- C2: a successful result always carries a non-empty segment sequence:
for the VPS service's `fetch_transcript` (given that cached payloads were
written with non-empty segments), for every payload the service itself
saves, and for every transcript response of the endpoint handler
(given the same guarantee of the upstream VPS responses). -/
theorem c2_success_implies_nonempty_segments :
    (∀ env : Vps.VpsEnv, (∀ c, env.cached = some c → c.segments ≠ []) →
      (Vps.fetch_transcript env).1.success = true →
      (Vps.fetch_transcript env).1.segments ≠ []) ∧
    (∀ (env : Vps.VpsEnv) (st : Vps.StoredResult),
      (Vps.fetch_transcript env).2 = some st → st.segments ≠ []) ∧
    (∀ (vps : Option Vps.VpsResult) (aenv : Api.ApiEnv),
      (∀ r, vps = some r → r.success = true → r.segments ≠ []) →
      (Api.handleFetch vps aenv).success = true →
      (Api.handleFetch vps aenv).segments ≠ []) := by
  refine ⟨?_, ?_, ?_⟩
  · intro env hcache
    unfold Vps.fetch_transcript
    cases hc : env.cached with
    | some c => intro _; exact hcache c hc
    | none =>
      cases env.info with
      | none => simp [Vps.vpsFail]
      | some info =>
        dsimp only
        split
        · simp [Vps.vpsFail]
        · cases env.downloaded with
          | none => simp [Vps.vpsFail]
          | some d =>
            dsimp only
            split
            · simp [Vps.vpsFail]
            · intro _; assumption
  · intro env st
    unfold Vps.fetch_transcript
    cases env.cached with
    | some c => simp
    | none =>
      cases env.info with
      | none => simp
      | some info =>
        dsimp only
        split
        · simp
        · cases env.downloaded with
          | none => simp
          | some d =>
            dsimp only
            split
            · simp
            · intro hst
              simp only [Option.some.injEq] at hst
              subst hst
              assumption
  · intro vps aenv hvps
    cases vps with
    | some r =>
      unfold Api.handleFetch
      by_cases hr : r.success = true
      · simp only [hr, if_true]
        intro _
        exact hvps r rfl hr
      · simp only [hr]
        simp only [Bool.not_eq_true] at hr
        simp [hr]
        exact localFetchResponse_success_nonempty aenv
    | none => exact localFetchResponse_success_nonempty aenv

theorem c2_witness :
    (Vps.fetch_transcript hitEnv).1.segments ≠ [] ∧
    (Api.handleFetch (some (Vps.fetch_transcript hitEnv).1) noProxyEnv).segments ≠ [] :=
  ⟨c2_success_implies_nonempty_segments.1 hitEnv
      (fun c hc => by cases hc; decide) rfl,
   c2_success_implies_nonempty_segments.2.2 (some (Vps.fetch_transcript hitEnv).1) noProxyEnv
      (fun r hr _ => by cases hr; decide) rfl⟩

/-- C3: with no alternate egress configured (`proxy = None`, `force_proxy`
unset) and Strategy 1 failing with a bot-challenge signature, the
orchestrator raises `All methods failed` having invoked Method 1 only —
Strategies 2 and 3 are never invoked. -/
theorem c3_no_proxy_bot_failure_exhausts
    (env : Api.ApiEnv) (e : List Char)
    (hp : env.proxy = none) (hf : env.force_proxy = false)
    (h1 : env.method1 = .error e) (_hbot : Api.botSig e = true) :
    Api.fetch_transcript env =
      (.error (String.toList "All methods failed"), [Api.Method.m1]) := by
  simp [Api.fetch_transcript, Api.fetchM1, Api.fetchM2, Api.fetchM3, hp, hf, h1]

theorem c3_witness :
    Api.fetch_transcript noProxyEnv =
      (.error (String.toList "All methods failed"), [Api.Method.m1]) :=
  c3_no_proxy_bot_failure_exhausts noProxyEnv _ rfl rfl rfl (by decide)

theorem fetchM3_trace (env : Api.ApiEnv) (tr : List Api.Method) :
    (Api.fetchM3 env tr).2 = tr ∨ (Api.fetchM3 env tr).2 = tr ++ [Api.Method.m3] := by
  unfold Api.fetchM3
  split
  · cases env.method3 <;> simp
  · left; rfl

theorem fetchM2_trace (env : Api.ApiEnv) (tr : List Api.Method)
    (hp : env.proxy.isSome = true) :
    ∃ rest, (Api.fetchM2 env tr true).2 = tr ++ Api.Method.m2 :: rest := by
  unfold Api.fetchM2
  rw [if_pos ⟨hp, rfl⟩]
  cases env.method2 with
  | ok r => exact ⟨[], by simp⟩
  | error e =>
    rcases fetchM3_trace env (tr ++ [Api.Method.m2]) with h | h
    · exact ⟨[], by rw [h]⟩
    · exact ⟨[Api.Method.m3], by rw [h]; simp⟩

theorem fetchM1_trace (env : Api.ApiEnv) (tr : List Api.Method) (e : List Char)
    (hp : env.proxy.isSome = true) (hf : env.force_proxy = false)
    (h1 : env.method1 = .error e) (hbot : Api.botSig e = true) :
    ∃ rest, (Api.fetchM1 env tr).2 = tr ++ Api.Method.m1 :: Api.Method.m2 :: rest := by
  unfold Api.fetchM1
  rw [hf, h1]
  simp only [Bool.false_eq_true, if_false, hbot]
  obtain ⟨rest, hr⟩ := fetchM2_trace env (tr ++ [Api.Method.m1]) hp
  exact ⟨rest, by rw [hr]; simp⟩

/-- C4 counterexample: proxy configured, Strategy 1 fails with a non-bot
failure (`No captions available`) — the orchestrator skips Strategy 2
(which would have succeeded here) and goes straight to Strategy 3,
refuting "Strategy 1 fails for any reason → Strategy 2 runs". -/
theorem c4_counterexample_nonbot_failure_skips_method2 :
    Api.fetch_transcript proxySkipEnv =
      (.error (String.toList "All methods failed"), [Api.Method.m1, Api.Method.m3]) := by
  rfl

/-- C4 amended: Strategy 2 is reached only when Strategy 1's failure text
carries the bot signature (`'bot'` or `'sign in'`, case-insensitive) — in
that case, with an egress configured, Method 2 is invoked directly after
Method 1 and before any later method. -/
theorem c4_amended_bot_failure_with_proxy_runs_method2
    (env : Api.ApiEnv) (e : List Char)
    (hp : env.proxy.isSome = true) (hf : env.force_proxy = false)
    (h0 : env.transcripts_lib_available = true → ∃ e0, env.method0 = .error e0)
    (h1 : env.method1 = .error e) (hbot : Api.botSig e = true) :
    ∃ pre rest,
      (Api.fetch_transcript env).2 = pre ++ Api.Method.m1 :: Api.Method.m2 :: rest ∧
      (pre = [] ∨ pre = [Api.Method.m0]) := by
  unfold Api.fetch_transcript
  by_cases ht : env.transcripts_lib_available = true
  · obtain ⟨e0, he0⟩ := h0 ht
    rw [if_pos ⟨hp, ht⟩, he0]
    obtain ⟨rest, hr⟩ := fetchM1_trace env [Api.Method.m0] e hp hf h1 hbot
    exact ⟨[Api.Method.m0], rest, hr, Or.inr rfl⟩
  · rw [if_neg (fun hand => ht hand.2)]
    obtain ⟨rest, hr⟩ := fetchM1_trace env [] e hp hf h1 hbot
    exact ⟨[], rest, hr, Or.inl rfl⟩

theorem c4_witness :
    ∃ pre rest,
      (Api.fetch_transcript botProxyEnv).2 = pre ++ Api.Method.m1 :: Api.Method.m2 :: rest ∧
      (pre = [] ∨ pre = [Api.Method.m0]) :=
  c4_amended_bot_failure_with_proxy_runs_method2 botProxyEnv _ rfl rfl
    (fun h => by simp [botProxyEnv] at h) rfl (by decide)

/-- C5 counterexample: a four-group timestamp does not fail — it returns
the minutes/seconds value of its first two groups (`"01:02:03:04"` yields
`62.0`), contradicting "fails with `MalformedTimestamp` for a group count
outside 2 or 3". -/
theorem c5_counterexample_four_groups_returns_value :
    Api.parse_timestamp (String.toList "01:02:03:04") = some 62 := by
  norm_num +decide [Api.parse_timestamp, pyFloat, pySplitChar, pyStrip, digitsToNat,
    decDigits, isPySpace]

/-- C5 amended: three groups give `H*3600+M*60+S` and two groups give
`M*60+S` (so `01:02:03.456` is `3723.456` and `02:03.456` is `123.456`),
but a group count of four or more does not fail: the parser returns
`M*60+S` computed from the first two groups; only a single-group input
(or a non-numeric group) fails. -/
theorem c5_amended_timestamp_contract :
    Api.parse_timestamp (String.toList "01:02:03.456") = some (3723456 / 1000) ∧
    Api.parse_timestamp (String.toList "02:03.456") = some (123456 / 1000) ∧
    (∀ ts a b c qa qb qc, pySplitChar ':' ts = [a, b, c] →
      pyFloat a = some qa → pyFloat b = some qb → pyFloat c = some qc →
      Api.parse_timestamp ts = some (qa * 3600 + qb * 60 + qc)) ∧
    (∀ ts a b rest qa qb, pySplitChar ':' ts = a :: b :: rest →
      (a :: b :: rest).length ≠ 3 →
      pyFloat a = some qa → pyFloat b = some qb →
      Api.parse_timestamp ts = some (qa * 60 + qb)) ∧
    (∀ ts a, pySplitChar ':' ts = [a] → Api.parse_timestamp ts = none) := by
  refine ⟨?_, ?_, ?_, ?_, ?_⟩
  · norm_num +decide [Api.parse_timestamp, pyFloat, pySplitChar, pyStrip, digitsToNat,
      decDigits, isPySpace]
  · norm_num +decide [Api.parse_timestamp, pyFloat, pySplitChar, pyStrip, digitsToNat,
      decDigits, isPySpace]
  · intro ts a b c qa qb qc hsplit ha hb hc
    unfold Api.parse_timestamp
    rw [hsplit]
    simp [ha, hb, hc]
  · intro ts a b rest qa qb hsplit hlen ha hb
    unfold Api.parse_timestamp
    rw [hsplit, if_neg hlen]
    simp [ha, hb]
  · intro ts a hsplit
    unfold Api.parse_timestamp
    rw [hsplit]
    simp

theorem c5_witness :
    Api.parse_timestamp (String.toList "01:02:03") = some (1 * 3600 + 2 * 60 + 3) ∧
    Api.parse_timestamp (String.toList "01:02:03:04") = some (1 * 60 + 2) ∧
    Api.parse_timestamp (String.toList "59") = none :=
  ⟨c5_amended_timestamp_contract.2.2.1 (String.toList "01:02:03") (String.toList "01")
      (String.toList "02") (String.toList "03") 1 2 3 (by decide)
      (by norm_num +decide [pyFloat, pySplitChar, pyStrip, digitsToNat, decDigits, isPySpace])
      (by norm_num +decide [pyFloat, pySplitChar, pyStrip, digitsToNat, decDigits, isPySpace])
      (by norm_num +decide [pyFloat, pySplitChar, pyStrip, digitsToNat, decDigits, isPySpace]),
   c5_amended_timestamp_contract.2.2.2.1 (String.toList "01:02:03:04") (String.toList "01")
      (String.toList "02") [String.toList "03", String.toList "04"] 1 2 (by decide) (by decide)
      (by norm_num +decide [pyFloat, pySplitChar, pyStrip, digitsToNat, decDigits, isPySpace])
      (by norm_num +decide [pyFloat, pySplitChar, pyStrip, digitsToNat, decDigits, isPySpace]),
   c5_amended_timestamp_contract.2.2.2.2 (String.toList "59") (String.toList "59") (by decide)⟩

/-- C8: the track selector is a pure function of the info mapping
(repeated selection agrees), the manual-subtitle set is consulted first —
a present, non-empty manual `en-US` list decides the result regardless of
the automatic captions — and on the demo mapping holding both a manual
`en-US` track and an automatic `en-orig` track the manual one is chosen. -/
theorem c8_track_selector_deterministic_and_manual_first :
    (∀ info : Api.YtInfo,
      Api.get_best_caption_track info = Api.get_best_caption_track info) ∧
    (∀ (info : Api.YtInfo) (l : List Api.Track),
      Api.dictGet info.subtitles (String.toList "en-US") = some l → l ≠ [] →
      Api.get_best_caption_track info = Api.formatPick l) ∧
    Api.get_best_caption_track demoYtInfo = some manualTrack := by
  refine ⟨fun _ => rfl, ?_, by decide⟩
  intro info l hget hne
  have h1 : Api.prioFind info.subtitles Api.subtitle_priorities = some l := by
    unfold Api.subtitle_priorities Api.prioFind
    rw [hget]
    simp [hne]
  unfold Api.get_best_caption_track
  rw [h1]
  simp [Api.trackFalsy, List.isEmpty_iff, hne]

theorem c8_witness :
    Api.get_best_caption_track demoYtInfo = Api.formatPick [manualTrack] :=
  c8_track_selector_deterministic_and_manual_first.2.1 demoYtInfo [manualTrack]
    (by decide) (by decide)

theorem isPrefixOfC_mem : ∀ {m s : List Char}, isPrefixOfC m s = true → ∀ c ∈ m, c ∈ s := by
  intro m
  induction m with
  | nil => intro s _ c hc; cases hc
  | cons a as ih =>
    intro s h c hc
    cases s with
    | nil => simp [isPrefixOfC] at h
    | cons b bs =>
      simp only [isPrefixOfC, Bool.and_eq_true, beq_iff_eq] at h
      obtain ⟨rfl, h2⟩ := h
      rcases List.mem_cons.mp hc with hc | hc
      · subst hc; exact List.mem_cons_self _ _
      · exact List.mem_cons_of_mem _ (ih h2 c hc)

theorem isPrefixOfC_false_of_failsIn :
    ∀ {m pre : List Char} (s : List Char), failsIn m pre = true →
      isPrefixOfC m (pre ++ s) = false := by
  intro m
  induction m with
  | nil => intro pre s h; simp [failsIn] at h
  | cons a as ih =>
    intro pre s h
    cases pre with
    | nil => simp [failsIn] at h
    | cons b bs =>
      by_cases hab : (a == b) = true
      · rw [failsIn, if_pos hab] at h
        show (a == b && isPrefixOfC as (bs ++ s)) = false
        rw [ih s h, Bool.and_false]
      · simp only [Bool.not_eq_true] at hab
        show (a == b && isPrefixOfC as (bs ++ s)) = false
        rw [hab, Bool.false_and]

theorem tryMarkersAt_none_of_failsIn (ms : List (List Char)) (pre s : List Char)
    (h : ∀ m ∈ ms, failsIn m pre = true) : tryMarkersAt ms (pre ++ s) = none := by
  induction ms with
  | nil => rfl
  | cons m ms ih =>
    unfold tryMarkersAt
    rw [isPrefixOfC_false_of_failsIn s (h m (List.mem_cons_self _ _))]
    simp only [Bool.false_eq_true, if_false]
    exact ih fun m1 hm1 => h m1 (List.mem_cons_of_mem _ hm1)

theorem reSearch_cons (ms : List (List Char)) (c : Char) (r : List Char) :
    reSearch ms (c :: r) =
      match tryMarkersAt ms (c :: r) with
      | some t => some t
      | none => reSearch ms r := rfl

theorem reSearch_append_of_noHit (ms : List (List Char)) :
    ∀ (pre s : List Char), noHit ms pre = true → reSearch ms (pre ++ s) = reSearch ms s := by
  intro pre
  induction pre with
  | nil => intro s _; rfl
  | cons c rest ih =>
    intro s h
    simp only [noHit, Bool.and_eq_true, List.all_eq_true] at h
    obtain ⟨hall, hrest⟩ := h
    have hnone : tryMarkersAt ms (c :: (rest ++ s)) = none := by
      have := tryMarkersAt_none_of_failsIn ms (c :: rest) s hall
      rwa [List.cons_append] at this
    rw [List.cons_append, reSearch_cons, hnone]
    exact ih s hrest

theorem tryMarkersAt_none_of_token (ms : List (List Char)) (s : List Char)
    (hs : s.all tokenChar = true)
    (hm : ∀ m ∈ ms, ∃ c ∈ m, tokenChar c = false) : tryMarkersAt ms s = none := by
  induction ms with
  | nil => rfl
  | cons m ms ih =>
    obtain ⟨c, hcm, hcf⟩ := hm m (List.mem_cons_self _ _)
    have hp : isPrefixOfC m s = false := by
      by_cases hb : isPrefixOfC m s = true
      · have hcs : c ∈ s := isPrefixOfC_mem hb c hcm
        have := List.all_eq_true.mp hs c hcs
        rw [hcf] at this
        exact absurd this (by simp)
      · simpa using hb
    unfold tryMarkersAt
    rw [hp]
    simp only [Bool.false_eq_true, if_false]
    exact ih fun m1 hm1 => hm m1 (List.mem_cons_of_mem _ hm1)

theorem reSearch_none_of_token (ms : List (List Char))
    (hm : ∀ m ∈ ms, ∃ c ∈ m, tokenChar c = false) :
    ∀ s : List Char, s.all tokenChar = true → reSearch ms s = none := by
  intro s
  induction s with
  | nil => intro _; exact tryMarkersAt_none_of_token ms [] (by simp) hm
  | cons c cs ih =>
    intro hs
    rw [reSearch_cons, tryMarkersAt_none_of_token ms (c :: cs) hs hm]
    exact ih (by simp only [List.all_cons, Bool.and_eq_true] at hs; exact hs.2)

theorem matchToken11_self {tok : List Char} (h11 : tok.length = 11)
    (hall : tok.all tokenChar = true) : matchToken11 tok = some tok := by
  unfold matchToken11
  have ht : tok.take 11 = tok := by
    rw [← h11]
    exact List.take_length tok
  rw [ht, if_pos ⟨h11, hall⟩]

theorem isPrefixOfC_self_append : ∀ (m s : List Char), isPrefixOfC m (m ++ s) = true := by
  intro m s
  induction m with
  | nil => rfl
  | cons a as ih =>
    show (a == a && isPrefixOfC as (as ++ s)) = true
    rw [ih, beq_self_eq_true, Bool.and_true]

theorem reSearch_of_tryMarkersAt_some {ms : List (List Char)} {s t : List Char}
    (h : tryMarkersAt ms s = some t) : reSearch ms s = some t := by
  cases s with
  | nil => exact h
  | cons c r => rw [reSearch_cons, h]

theorem tryMarkersAt_hit_first {ms : List (List Char)} {m tok : List Char}
    (h11 : tok.length = 11) (hall : tok.all tokenChar = true) :
    tryMarkersAt (m :: ms) (m ++ tok) = some tok := by
  unfold tryMarkersAt
  rw [isPrefixOfC_self_append, if_pos rfl, List.drop_left, matchToken11_self h11 hall]

theorem tryMarkersAt_cons (m : List Char) (ms : List (List Char)) (s : List Char) :
    tryMarkersAt (m :: ms) s =
      if isPrefixOfC m s then
        match matchToken11 (s.drop m.length) with
        | some t => some t
        | none => tryMarkersAt ms s
      else tryMarkersAt ms s := rfl

theorem tryMarkersAt_hit_second {tok : List Char} (h11 : tok.length = 11)
    (hall : tok.all tokenChar = true) :
    tryMarkersAt [watchMarker, beMarker] (beMarker ++ tok) = some tok := by
  rw [tryMarkersAt_cons,
    isPrefixOfC_false_of_failsIn tok (by decide : failsIn watchMarker beMarker = true)]
  simp only [Bool.false_eq_true, if_false]
  exact tryMarkersAt_hit_first h11 hall

theorem searchPatterns_watch {tok : List Char} (h11 : tok.length = 11)
    (hall : tok.all tokenChar = true) : searchPatterns (watchPre ++ tok) = some tok := by
  have h1 : reSearch [watchMarker, beMarker] (watchPre ++ tok) = some tok := by
    rw [show watchPre ++ tok = String.toList "https://www." ++ (watchMarker ++ tok) by
      rw [← List.append_assoc]; rfl]
    rw [reSearch_append_of_noHit _ _ _ (by decide)]
    exact reSearch_of_tryMarkersAt_some (tryMarkersAt_hit_first h11 hall)
  unfold searchPatterns
  rw [h1]

theorem searchPatterns_be {tok : List Char} (h11 : tok.length = 11)
    (hall : tok.all tokenChar = true) : searchPatterns (bePre ++ tok) = some tok := by
  have h1 : reSearch [watchMarker, beMarker] (bePre ++ tok) = some tok := by
    rw [show bePre ++ tok = String.toList "https://" ++ (beMarker ++ tok) by
      rw [← List.append_assoc]; rfl]
    rw [reSearch_append_of_noHit _ _ _ (by decide)]
    exact reSearch_of_tryMarkersAt_some (tryMarkersAt_hit_second h11 hall)
  unfold searchPatterns
  rw [h1]

theorem searchPatterns_embed {tok : List Char} (h11 : tok.length = 11)
    (hall : tok.all tokenChar = true) : searchPatterns (embedPre ++ tok) = some tok := by
  have h1 : reSearch [watchMarker, beMarker] (embedPre ++ tok) = none := by
    rw [reSearch_append_of_noHit _ _ _ (by decide)]
    exact reSearch_none_of_token _ (by decide) tok hall
  have h2 : reSearch [embedMarker] (embedPre ++ tok) = some tok := by
    rw [show embedPre ++ tok = String.toList "https://www." ++ (embedMarker ++ tok) by
      rw [← List.append_assoc]; rfl]
    rw [reSearch_append_of_noHit _ _ _ (by decide)]
    exact reSearch_of_tryMarkersAt_some (tryMarkersAt_hit_first h11 hall)
  unfold searchPatterns
  rw [h1, h2]

theorem searchPatterns_shorts {tok : List Char} (h11 : tok.length = 11)
    (hall : tok.all tokenChar = true) : searchPatterns (shortsPre ++ tok) = some tok := by
  have h1 : reSearch [watchMarker, beMarker] (shortsPre ++ tok) = none := by
    rw [reSearch_append_of_noHit _ _ _ (by decide)]
    exact reSearch_none_of_token _ (by decide) tok hall
  have h2 : reSearch [embedMarker] (shortsPre ++ tok) = none := by
    rw [reSearch_append_of_noHit _ _ _ (by decide)]
    exact reSearch_none_of_token _ (by decide) tok hall
  have h3 : reSearch [vMarker] (shortsPre ++ tok) = none := by
    rw [reSearch_append_of_noHit _ _ _ (by decide)]
    exact reSearch_none_of_token _ (by decide) tok hall
  have h4 : reSearch [shortsMarker] (shortsPre ++ tok) = some tok := by
    rw [show shortsPre ++ tok = String.toList "https://www." ++ (shortsMarker ++ tok) by
      rw [← List.append_assoc]; rfl]
    rw [reSearch_append_of_noHit _ _ _ (by decide)]
    exact reSearch_of_tryMarkersAt_some (tryMarkersAt_hit_first h11 hall)
  unfold searchPatterns
  rw [h1, h2, h3, h4]

theorem searchPatterns_token_none {tok : List Char} (hall : tok.all tokenChar = true) :
    searchPatterns tok = none := by
  unfold searchPatterns
  rw [reSearch_none_of_token [watchMarker, beMarker] (by decide) tok hall,
    reSearch_none_of_token [embedMarker] (by decide) tok hall,
    reSearch_none_of_token [vMarker] (by decide) tok hall,
    reSearch_none_of_token [shortsMarker] (by decide) tok hall]

/-- C10 counterexample: the API-side `extract_video_id`
(transcript.py:88-102) has no verbatim-acceptance branch — handed a bare
valid 11-character token it returns `None`, contradicting "an input that
already is such a token is accepted verbatim". -/
theorem c10_counterexample_api_rejects_bare_token :
    Api.extract_video_id (String.toList "aaaaaaaaaaa") = none := by
  decide

/-- C10 amended: every valid 11-character token embedded in any of the
four URL shapes is recovered exactly by both extractors; a bare token is
accepted verbatim by the VPS service's extractor (service.py:105), while
the API-side extractor returns `None` on a bare token. -/
theorem c10_amended_extract_video_id (tok : List Char)
    (h11 : tok.length = 11) (hall : tok.all tokenChar = true) :
    Api.extract_video_id (watchPre ++ tok) = some tok ∧
    Api.extract_video_id (bePre ++ tok) = some tok ∧
    Api.extract_video_id (embedPre ++ tok) = some tok ∧
    Api.extract_video_id (shortsPre ++ tok) = some tok ∧
    Vps.extract_video_id (watchPre ++ tok) = some tok ∧
    Vps.extract_video_id (bePre ++ tok) = some tok ∧
    Vps.extract_video_id (embedPre ++ tok) = some tok ∧
    Vps.extract_video_id (shortsPre ++ tok) = some tok ∧
    Vps.extract_video_id tok = some tok ∧
    Api.extract_video_id tok = none := by
  have hlen : ∀ pre : List Char, pre ≠ [] → ¬((pre ++ tok).length = 11 ∧
      (pre ++ tok).all tokenChar) := by
    intro pre hpre h
    have := h.1
    rw [List.length_append, h11] at this
    cases pre with
    | nil => exact hpre rfl
    | cons c cs => simp [List.length_cons] at this
  refine ⟨searchPatterns_watch h11 hall, searchPatterns_be h11 hall,
    searchPatterns_embed h11 hall, searchPatterns_shorts h11 hall, ?_, ?_, ?_, ?_, ?_, ?_⟩
  · unfold Vps.extract_video_id
    rw [if_neg (hlen watchPre (by decide))]
    exact searchPatterns_watch h11 hall
  · unfold Vps.extract_video_id
    rw [if_neg (hlen bePre (by decide))]
    exact searchPatterns_be h11 hall
  · unfold Vps.extract_video_id
    rw [if_neg (hlen embedPre (by decide))]
    exact searchPatterns_embed h11 hall
  · unfold Vps.extract_video_id
    rw [if_neg (hlen shortsPre (by decide))]
    exact searchPatterns_shorts h11 hall
  · unfold Vps.extract_video_id
    rw [if_pos ⟨h11, hall⟩]
  · exact searchPatterns_token_none hall

theorem c10_witness :
    Api.extract_video_id (watchPre ++ String.toList "dQw4w9WgXcQ") =
      some (String.toList "dQw4w9WgXcQ") ∧
    Vps.extract_video_id (String.toList "dQw4w9WgXcQ") =
      some (String.toList "dQw4w9WgXcQ") ∧
    Api.extract_video_id (String.toList "dQw4w9WgXcQ") = none := by
  obtain ⟨h1, _, _, _, _, _, _, _, h9, h10⟩ :=
    c10_amended_extract_video_id (String.toList "dQw4w9WgXcQ") (by decide) (by decide)
  exact ⟨h1, h9, h10⟩

theorem pySplitChar_no_sep (sep : Char) :
    ∀ l : List Char, (∀ c ∈ l, c ≠ sep) → pySplitChar sep l = [l] := by
  intro l
  induction l with
  | nil => intro _; rfl
  | cons c cs ih =>
    intro h
    unfold pySplitChar
    rw [if_neg (h c (List.mem_cons_self _ _)),
      ih fun c1 hc1 => h c1 (List.mem_cons_of_mem _ hc1)]

theorem pySplitChar_cons (sep c : Char) (rest : List Char) :
    pySplitChar sep (c :: rest) =
      if c = sep then [] :: pySplitChar sep rest
      else
        match pySplitChar sep rest with
        | [] => [[c]]
        | t :: ts => (c :: t) :: ts := rfl

theorem pySplitChar_append_sep (sep : Char) :
    ∀ (l r : List Char), (∀ c ∈ l, c ≠ sep) →
      pySplitChar sep (l ++ sep :: r) = l :: pySplitChar sep r := by
  intro l
  induction l with
  | nil => intro r _; simp [pySplitChar]
  | cons c cs ih =>
    intro r h
    rw [List.cons_append, pySplitChar_cons,
      if_neg (h c (List.mem_cons_self _ _)),
      ih r fun c1 hc1 => h c1 (List.mem_cons_of_mem _ hc1)]

theorem split_joinNL :
    ∀ ls : List (List Char), ls ≠ [] → (∀ l ∈ ls, ∀ c ∈ l, c ≠ '\n') →
      pySplitChar '\n' (joinNL ls) = ls := by
  intro ls
  induction ls with
  | nil => intro h _; exact absurd rfl h
  | cons l ls ih =>
    intro _ h
    cases ls with
    | nil => exact pySplitChar_no_sep '\n' l (h l (List.mem_cons_self _ _))
    | cons l2 ls2 =>
      show pySplitChar '\n' (l ++ '\n' :: joinNL (l2 :: ls2)) = l :: l2 :: ls2
      rw [pySplitChar_append_sep '\n' l _ (h l (List.mem_cons_self _ _)),
        ih (by simp) fun l1 hl1 => h l1 (List.mem_cons_of_mem _ hl1)]

theorem stripTagsF_id :
    ∀ (fuel : Nat) (s : List Char), (∀ c ∈ s, c ≠ '<') → stripTagsF fuel s = s := by
  intro fuel
  induction fuel with
  | zero => intro s _; rfl
  | succ n ih =>
    intro s h
    cases s with
    | nil => rfl
    | cons c cs =>
      unfold stripTagsF
      rw [if_neg (h c (List.mem_cons_self _ _)),
        ih cs fun c1 hc1 => h c1 (List.mem_cons_of_mem _ hc1)]

theorem stripTags_id (s : List Char) (h : ∀ c ∈ s, c ≠ '<') : stripTags s = s :=
  stripTagsF_id _ s h

theorem takeDigits_cons_nondigit {c : Char} (h : c.isDigit = false) (n : Nat) (s : List Char) :
    Api.takeDigits (n + 1) (c :: s) = none := by
  simp [Api.takeDigits, h]

theorem vttTsMatch_none_of_head_nondigit {c : Char} {r : List Char}
    (h : c.isDigit = false) : Api.vttTsMatch (c :: r) = none := by
  have hH : Api.vttTimeH (c :: r) = none := by
    unfold Api.vttTimeH
    rw [takeDigits_cons_nondigit h]
    rfl
  have hNH : Api.vttTimeNH (c :: r) = none := by
    unfold Api.vttTimeNH
    rw [takeDigits_cons_nondigit h]
    rfl
  unfold Api.vttTsMatch Api.vttTime
  rw [hH, hNH]
  rfl

theorem no_newline_of_all (l : List Char) (h : l.all (fun c => c != '\n') = true) :
    ∀ c ∈ l, c ≠ '\n' := by
  intro c hc
  have := List.all_eq_true.mp h c hc
  simpa using this

set_option maxHeartbeats 3200000 in
theorem vttTsMatch_ts1 :
    Api.vttTsMatch (String.toList "00:00:00.000 --> 00:00:05.000") = some (0, 5) := by
  norm_num +decide [Api.vttTsMatch, Api.vttTime, Api.vttTimeH, Api.vttTimeNH,
    Api.takeDigits, Api.secondsVal, Api.skipWs1, Api.stripArrowLit, isPySpace,
    digitsToNat, Option.orElse]

set_option maxHeartbeats 3200000 in
theorem vttTsMatch_ts2 :
    Api.vttTsMatch (String.toList "00:00:05.000 --> 00:00:10.000") = some (5, 10) := by
  norm_num +decide [Api.vttTsMatch, Api.vttTime, Api.vttTimeH, Api.vttTimeNH,
    Api.takeDigits, Api.secondsVal, Api.skipWs1, Api.stripArrowLit, isPySpace,
    digitsToNat, Option.orElse]

theorem vttStep_skip_header (st : Api.VttState) :
    Api.vttStep st (String.toList "WEBVTT") = st := rfl

theorem vttStep_skip_empty (st : Api.VttState) : Api.vttStep st [] = st := rfl

theorem vttStep_ts1 (st : Api.VttState) :
    Api.vttStep st (String.toList "00:00:00.000 --> 00:00:05.000") =
      ⟨Api.vttFlush st, 0, 5, []⟩ := by
  unfold Api.vttStep
  dsimp only
  rw [if_neg (by decide),
    show pyStrip (String.toList "00:00:00.000 --> 00:00:05.000") =
      String.toList "00:00:00.000 --> 00:00:05.000" from by decide,
    vttTsMatch_ts1]

theorem vttStep_ts2 (st : Api.VttState) :
    Api.vttStep st (String.toList "00:00:05.000 --> 00:00:10.000") =
      ⟨Api.vttFlush st, 5, 10, []⟩ := by
  unfold Api.vttStep
  dsimp only
  rw [if_neg (by decide),
    show pyStrip (String.toList "00:00:05.000 --> 00:00:10.000") =
      String.toList "00:00:05.000 --> 00:00:10.000" from by decide,
    vttTsMatch_ts2]

theorem vttStep_text (t : List Char) (h1 : t ≠ []) (h2 : pyStrip t = t)
    (hd : ∀ c ∈ t, c.isDigit = false) (hlt : ∀ c ∈ t, c ≠ '<')
    (h4 : t ≠ String.toList "WEBVTT")
    (h5 : isPrefixOfC (String.toList "NOTE") t = false)
    (segs : List Segment) (cs ce : ℚ) :
    Api.vttStep ⟨segs, cs, ce, []⟩ t = ⟨segs, cs, ce, t⟩ := by
  have hmatch : Api.vttTsMatch t = none := by
    cases t with
    | nil => exact absurd rfl h1
    | cons c r => exact vttTsMatch_none_of_head_nondigit (hd c (List.mem_cons_self _ _))
  unfold Api.vttStep
  dsimp only
  rw [h2, if_neg (by push_neg; exact ⟨h1, h4, by simp only [Bool.not_eq_true]; exact h5⟩), hmatch, stripTags_id t hlt]
  simp

theorem vttFlush_empty_text (segs : List Segment) (cs ce : ℚ) :
    Api.vttFlush ⟨segs, cs, ce, []⟩ = segs := by
  simp [Api.vttFlush]

theorem vttFlush_first (t : List Char) (h1 : t ≠ []) (h2 : pyStrip t = t) (cs ce : ℚ) :
    Api.vttFlush ⟨[], cs, ce, t⟩ = [⟨t, cs, ce - cs⟩] := by
  unfold Api.vttFlush
  rw [if_pos ⟨h1, Or.inl rfl⟩, h2]
  rfl

theorem vttFlush_dup (t : List Char) (s0 : Segment) (hs0 : s0.text = t)
    (cs ce : ℚ) : Api.vttFlush ⟨[s0], cs, ce, t⟩ = [s0] := by
  unfold Api.vttFlush
  rw [if_neg]
  simp [hs0]

set_option maxHeartbeats 3200000 in
theorem parse_srt_srtDup :
    Api.parse_srt srtDup =
      .ok [⟨String.toList "hello", 0, 5⟩, ⟨String.toList "hello", 5, 5⟩] := by
  norm_num +decide [Api.parse_srt, srtDup, splitNN, joinNL, Api.srtBlockStep, pySplitChar,
    pyStrip, isPySpace, Api.srtTsMatch, Api.srtTime, Api.takeDigits, Api.skipWs1,
    Api.stripArrowLit, Api.replaceCommaDot, Api.parse_timestamp, pyFloat, digitsToNat,
    decDigits, joinSpace, stripTags, stripTagsF, splitTag, splitTagGo,
    List.foldlM_cons, List.foldlM_nil, Except.bind, Bind.bind, pure, Except.pure]

/-- C6 counterexample: on the block-style (SRT) grammar, an input with two
consecutive identical-text cues keeps both of them — the SRT entry point
applies no consecutive-duplicate dedup, contradicting "both cue-parser
entry points apply the dedup rule". -/
theorem c6_counterexample_srt_keeps_consecutive_duplicates :
    Api.parse_srt srtDup =
      .ok [⟨String.toList "hello", 0, 5⟩, ⟨String.toList "hello", 5, 5⟩] :=
  parse_srt_srtDup

/-- C6 amended: only the cue-block (VTT) entry point applies the
consecutive-duplicate dedup rule — two consecutive cues with the same
plain text `t` at different timestamps collapse to the first retained
cue — while the block-style (SRT) entry point retains both cues. -/
theorem c6_amended_dedup_only_on_vtt_path (t : List Char)
    (h1 : t ≠ []) (h2 : pyStrip t = t)
    (hd : ∀ c ∈ t, c.isDigit = false) (hlt : ∀ c ∈ t, c ≠ '<')
    (hnl : ∀ c ∈ t, c ≠ '\n')
    (h4 : t ≠ String.toList "WEBVTT")
    (h5 : isPrefixOfC (String.toList "NOTE") t = false) :
    Api.parse_vtt (dupVtt t) = [⟨t, 0, 5⟩] ∧
    Api.parse_srt srtDup =
      .ok [⟨String.toList "hello", 0, 5⟩, ⟨String.toList "hello", 5, 5⟩] := by
  refine ⟨?_, parse_srt_srtDup⟩
  have hsplit : pySplitChar '\n' (dupVtt t) =
      [String.toList "WEBVTT", [], String.toList "00:00:00.000 --> 00:00:05.000", t, [],
       String.toList "00:00:05.000 --> 00:00:10.000", t] := by
    unfold dupVtt
    refine split_joinNL _ (by simp) ?_
    intro l hl
    simp only [List.mem_cons, List.not_mem_nil, or_false] at hl
    rcases hl with rfl | rfl | rfl | rfl | rfl | rfl | rfl
    · exact no_newline_of_all _ (by decide)
    · intro c hc; cases hc
    · exact no_newline_of_all _ (by decide)
    · exact hnl
    · intro c hc; cases hc
    · exact no_newline_of_all _ (by decide)
    · exact hnl
  unfold Api.parse_vtt
  rw [hsplit]
  simp only [List.foldl_cons, List.foldl_nil, vttStep_skip_header, vttStep_skip_empty,
    vttStep_ts1, vttStep_ts2, vttFlush_empty_text,
    vttStep_text t h1 h2 hd hlt h4 h5, vttFlush_first t h1 h2,
    vttFlush_dup t, sub_zero]

theorem c6_witness :
    Api.parse_vtt (dupVtt (String.toList "hello")) = [⟨String.toList "hello", 0, 5⟩] ∧
    Api.parse_srt srtDup =
      .ok [⟨String.toList "hello", 0, 5⟩, ⟨String.toList "hello", 5, 5⟩] :=
  c6_amended_dedup_only_on_vtt_path (String.toList "hello") (by decide) (by decide)
    (by decide) (by decide) (by decide) (by decide) (by decide)

theorem exceptBind_ok {ε α β : Type} {x : Except ε α} {f : α → Except ε β} {b : β}
    (h : x >>= f = .ok b) : ∃ a, x = .ok a ∧ f a = .ok b := by
  cases x with
  | error e => simp [Bind.bind, Except.bind] at h
  | ok a => exact ⟨a, rfl, by simpa [Bind.bind, Except.bind] using h⟩

/-- C7 counterexample: the cue-block (VTT) entry point does not fail on an
empty parse — a cue-less input yields the empty segment list (it is then
the Method-3 caller's burden, not the parser's, to reject it),
contradicting "both entry points fail with `NoCuesParsed` whenever the
final cue sequence is empty". -/
theorem c7_counterexample_vtt_returns_empty_list :
    Api.parse_vtt (String.toList "WEBVTT") = [] := rfl

/-- C7 amended: only the block-style (SRT) entry point guards against an
empty parse — `parse_srt` never returns a successful empty sequence (it
raises `No transcript segments found` instead) — while the cue-block
(VTT) entry point returns the empty sequence without failing. -/
theorem c7_amended_only_srt_fails_on_empty :
    (∀ (content : List Char) (segs : List Segment),
      Api.parse_srt content = .ok segs → segs ≠ []) ∧
    Api.parse_vtt [] = [] := by
  refine ⟨?_, rfl⟩
  intro content segs h
  unfold Api.parse_srt at h
  obtain ⟨a, _, hfa⟩ := exceptBind_ok h
  by_cases hs : a = []
  · rw [hs] at hfa
    simp at hfa
  · simp only [hs, if_false] at hfa
    cases hfa
    exact hs

theorem c7_witness :
    [⟨String.toList "hello", 0, 5⟩, ⟨String.toList "hello", 5, 5⟩] ≠ ([] : List Segment) :=
  c7_amended_only_srt_fails_on_empty.1 srtDup _ parse_srt_srtDup
